import Mathlib

/-!
Shallow embedding of the cyclical asynchronous pipeline example
(`examples/proto/src/main.rs` of the `ocl` repository).

The example drives, for `TASK_ITERS` iterations, the stage chain

  Fill-Junk -> Map-Write-Init -> (Read-Verify-Init) -> Kernel-Add -> Map-Verify-Add

synchronized by OpenCL events, joins the Write-Init and Verify-Add futures
into one task per iteration, and streams the tasks through a bounded
`sync_channel` to a completion thread.

We embed: the scalar constants, the `Int4` element type and the per-element
kernel arithmetic, the CPU-side bodies of the map/read stages (write loop and
verify scan), the event bookkeeping of the driver loop in `main` as a state
machine over symbolic events, the completion thread, and the channel bound.
-/

namespace Proto

/-- `WORK_SIZE`: size of buffers and kernel work size (`1 << 25`). -/
def WORK_SIZE : Nat := 2 ^ 25

/-- `SCALAR_ADDEND`: value which the kernel sums with values in the input buffer. -/
def SCALAR_ADDEND : Int := 100

/-- `TASK_ITERS`: number of times to run the loop. -/
def TASK_ITERS : Nat := 10

/-- `MAX_CONCURRENT_TASK_COUNT`: the size parameter of the pipeline channel
(minimum 2 per the source comment). -/
def MAX_CONCURRENT_TASK_COUNT : Nat := 2

/-- The capacity argument actually passed to `mpsc::sync_channel` in `main`:
`MAX_CONCURRENT_TASK_COUNT - 2`. -/
def channel_capacity : Nat := MAX_CONCURRENT_TASK_COUNT - 2

/-- `ocl::prm::Int4`: a vector of four 32-bit integers, modelled with
unbounded integer lanes; 32-bit wraparound is applied explicitly where the
kernel adds. -/
structure Int4 where
  s0 : Int
  s1 : Int
  s2 : Int
  s3 : Int
deriving DecidableEq, Repr

/-- `Int4::new(v, v, v, v)`, the splat constructor used by every stage. -/
def Int4.splat (v : Int) : Int4 := ⟨v, v, v, v⟩

/-- Two's-complement wraparound of a 32-bit signed add result (`int` lanes of
`int4` in the OpenCL kernel). -/
def wrap32 (x : Int) : Int := (x + 2 ^ 31) % 2 ^ 32 - 2 ^ 31

/-- Truncation of a rational toward zero, the rounding of OpenCL
`convert_int4` applied to a `float4`. -/
def qtrunc (q : ℚ) : Int := if q < 0 then -((-q).floor) else q.floor

/-- Per-lane sum accumulated by the kernel loop in `KERN_SRC`:

    float4 const inflated_val = (float4)(addend) * (float4)(255.0);
    int4 sum = (int4)(0);
    for (int i = 0; i < addend; i++) {
        sum += convert_int4((inflated_val / (float4)(255.0)) / (float4)(addend));
    }

The loop body is invariant, so the sum is the iteration count (`addend` when
positive, zero otherwise) times the converted quotient. The `float` chain is
modelled with exact rational arithmetic; at the addend the program uses
(`SCALAR_ADDEND = 100`) every intermediate `float` value (`100.0`, `25500.0`,
`100.0`, `1.0`) is exactly representable, so the rational model coincides
with IEEE single-precision evaluation there. -/
def kern_elem_sum (addend : Int) : Int :=
  if addend ≤ 0 then 0
  else addend * qtrunc ((((addend : ℚ) * 255) / 255) / (addend : ℚ))

/-- Adding the kernel sum to each lane of an input element, with 32-bit
wraparound (`out[idx] = in[idx] + sum`). -/
def Int4.addWrap (v : Int4) (s : Int) : Int4 :=
  ⟨wrap32 (v.s0 + s), wrap32 (v.s1 + s), wrap32 (v.s2 + s), wrap32 (v.s3 + s)⟩

/-- The device-side effect of the `add_slowly` kernel on the whole buffer. -/
def kernel_apply (addend : Int) (inp : List Int4) : List Int4 :=
  inp.map (fun v => v.addWrap (kern_elem_sum addend))

/-- The device-side effect of the fill command issued by `fill_junk`:
every element of `src_buf` becomes `Int4::new(-999, -999, -999, -999)`. -/
def fill_junk_buf (n : Nat) : List Int4 :=
  List.replicate n ⟨-999, -999, -999, -999⟩

/-- The write loop inside `map_write_init`'s continuation:
`for val in data.iter_mut() { *val = Int4::new(write_val, ...) }`. -/
def write_all (write_val : Int) : List Int4 → List Int4
  | [] => []
  | _ :: rest => Int4.splat write_val :: write_all write_val rest

/-- The error built by the verify scans: the formatted string
`"Result value mismatch: {actual} != {expected} @ [{index}]"`, modelled
structurally. -/
structure Mismatch where
  index : Nat
  expected : Int4
  actual : Int4
deriving DecidableEq, Repr

/-- The scan loop shared by `read_verify_init` and `map_verify_add`:
enumerate the elements; at the first element different from the splat of
`correct_val` return the mismatch error; otherwise count it and continue,
returning the final count. `idx` is the `enumerate` index and `count` the
running `val_count`. -/
def verify_scan (correct_val : Int) : List Int4 → Nat → Nat → Except Mismatch Nat
  | [], _, count => .ok count
  | v :: rest, idx, count =>
    if v ≠ Int4.splat correct_val then .error ⟨idx, Int4.splat correct_val, v⟩
    else verify_scan correct_val rest (idx + 1) (count + 1)

/-- The whole CPU-side continuation of `map_verify_add` (and of
`read_verify_init`), started at index 0 and count 0. -/
def map_verify_add_scan (data : List Int4) (correct_val : Int) : Except Mismatch Nat :=
  verify_scan correct_val data 0 0

/-! ## Events and the driver loop of `main` -/

/-- Which stage produced an OpenCL event. -/
inductive EvTag
  | fill
  | writeUnmap
  | kernel
  | verifyUnmap
deriving DecidableEq, Repr

/-- A symbolic completion event: the stage that created it and the iteration
at which it was created. -/
structure Ev where
  tag : EvTag
  iter : Nat
deriving DecidableEq, Repr

/-- The mutable event slots of `main`'s driver loop:
`fill_event`, `write_init_unmap_event`, `kernel_event`,
`verify_add_unmap_event`, and `kernel_wait_list`. -/
structure LoopState where
  fill_event : Option Ev
  write_init_unmap_event : Option Ev
  kernel_event : Option Ev
  verify_add_unmap_event : Option Ev
  kernel_wait_list : List Ev
deriving DecidableEq, Repr

/-- The slots before the first loop iteration: all `None`, the wait list
empty (`EventList::with_capacity(2)`). -/
def initState : LoopState := ⟨none, none, none, none, []⟩

/-- The arguments the driver passes to each stage of one iteration, and the
wait list the kernel stage rebuilds. -/
structure IterTrace where
  fill_wait : Option Ev
  write_wait : Option Ev
  verify_init_wait : Option Ev
  kernel_wait_list : List Ev
  verify_add_wait : Option Ev
deriving DecidableEq, Repr

/-- One iteration of `main`'s loop, as far as event bookkeeping goes.

0. `fill_junk` is called with `wait_event = kernel_event` (the previous
   iteration's kernel event) and sets `fill_event` to a fresh event.
1. `map_write_init` is called with `wait_event = fill_event` and sets
   `write_init_unmap_event` to a fresh unmap event.
2. `read_verify_init` is called with `wait_event = kernel_event` (still the
   previous iteration's, since `kernel_add` has not yet run).
3. `kernel_add` clears `kernel_wait_list`, pushes the previous iteration's
   `verify_add_unmap_event` (when set) then the current
   `write_init_unmap_event` (when set), and sets `kernel_event` to a fresh
   event; the kernel is enqueued waiting on a marker that waits on exactly
   this list.
4. `map_verify_add` is called with `wait_event = kernel_event` (now the
   current iteration's) and sets `verify_add_unmap_event` to a fresh unmap
   event. -/
def driverStep (s : LoopState) (i : Nat) : LoopState × IterTrace :=
  let fill_wait := s.kernel_event
  let fill_event := some (Ev.mk .fill i)
  let write_wait := fill_event
  let write_unmap := some (Ev.mk .writeUnmap i)
  let verify_init_wait := s.kernel_event
  let kwl : List Ev :=
    (match s.verify_add_unmap_event with
      | some e => [e]
      | none => []) ++
    (match write_unmap with
      | some e => [e]
      | none => [])
  let kernel_event := some (Ev.mk .kernel i)
  let verify_add_wait := kernel_event
  let verify_unmap := some (Ev.mk .verifyUnmap i)
  (⟨fill_event, write_unmap, kernel_event, verify_unmap, kwl⟩,
   ⟨fill_wait, write_wait, verify_init_wait, kwl, verify_add_wait⟩)

/-- The driver state after the first `n` iterations of the loop. -/
def driverStateAfter : Nat → LoopState
  | 0 => initState
  | n + 1 => (driverStep (driverStateAfter n) n).1

/-- The stage arguments observed during iteration `i` of the loop. -/
def driverTrace (i : Nat) : IterTrace :=
  (driverStep (driverStateAfter i) i).2

theorem driverStateAfter_succ (n : Nat) :
    driverStateAfter (n + 1) =
      ⟨some ⟨.fill, n⟩, some ⟨.writeUnmap, n⟩, some ⟨.kernel, n⟩,
        some ⟨.verifyUnmap, n⟩,
        (match (driverStateAfter n).verify_add_unmap_event with
          | some e => [e]
          | none => []) ++ [⟨.writeUnmap, n⟩]⟩ := by
  simp [driverStateAfter, driverStep]

theorem driverStateAfter_kernel_event (i : Nat) :
    (driverStateAfter i).kernel_event =
      if i = 0 then none else some ⟨.kernel, i - 1⟩ := by
  cases i with
  | zero => rfl
  | succ n => rw [driverStateAfter_succ]; simp

theorem driverStateAfter_verify_unmap (i : Nat) :
    (driverStateAfter i).verify_add_unmap_event =
      if i = 0 then none else some ⟨.verifyUnmap, i - 1⟩ := by
  cases i with
  | zero => rfl
  | succ n => rw [driverStateAfter_succ]; simp

theorem driverTrace_fill_wait (i : Nat) :
    (driverTrace i).fill_wait =
      if i = 0 then none else some ⟨.kernel, i - 1⟩ := by
  rw [driverTrace, show (driverStep (driverStateAfter i) i).2.fill_wait =
    (driverStateAfter i).kernel_event from rfl, driverStateAfter_kernel_event]

theorem driverTrace_verify_init_wait (i : Nat) :
    (driverTrace i).verify_init_wait =
      if i = 0 then none else some ⟨.kernel, i - 1⟩ := by
  rw [driverTrace, show (driverStep (driverStateAfter i) i).2.verify_init_wait =
    (driverStateAfter i).kernel_event from rfl, driverStateAfter_kernel_event]

theorem driverTrace_kernel_wait_list (i : Nat) :
    (driverTrace i).kernel_wait_list =
      (if i = 0 then [] else [⟨.verifyUnmap, i - 1⟩]) ++ [⟨.writeUnmap, i⟩] := by
  rw [driverTrace, show (driverStep (driverStateAfter i) i).2.kernel_wait_list =
    (match (driverStateAfter i).verify_add_unmap_event with
      | some e => [e]
      | none => []) ++ [⟨.writeUnmap, i⟩] from rfl, driverStateAfter_verify_unmap]
  by_cases h : i = 0 <;> simp [h]

theorem driverTrace_verify_add_wait (i : Nat) :
    (driverTrace i).verify_add_wait = some ⟨.kernel, i⟩ := rfl

/-! ## Host-side stage functions -/

/-- `map_write_init`, host-visible parts: the buffer contents after the write
loop runs on the mapped view, the unmap event stored into
`write_init_unmap_event` before the continuation runs (retained for the
driver), and the future's value `Ok(task_iter)`. -/
def map_write_init (buf : List Int4) (write_val : Int) (task_iter : Nat) :
    List Int4 × Ev × Except Mismatch Nat :=
  (write_all write_val buf, ⟨.writeUnmap, task_iter⟩, .ok task_iter)

/-- `read_verify_init`, host-visible parts. The function begins with
`wait_event.as_ref().unwrap()` to attach its status callback, so a `None`
wait event panics before anything is enqueued: modelled as `none`. With a
present wait event it returns the scan result over the read data. Its
commented-out completion event is never created. -/
def read_verify_init (wait_event : Option Ev) (data : List Int4)
    (correct_val : Int) : Option (Except Mismatch Nat) :=
  match wait_event with
  | none => none
  | some _ => some (map_verify_add_scan data correct_val)

/-- `map_verify_add`, host-visible parts. Like `read_verify_init` it unwraps
`wait_event` first (panic on `None`, modelled as `none`). Otherwise it stores
a fresh unmap event into `verify_add_unmap_event` (retained for the driver)
before the continuation runs, and the future resolves to the scan result. -/
def map_verify_add (wait_event : Option Ev) (data : List Int4)
    (correct_val : Int) (task_iter : Nat) :
    Option (Ev × Except Mismatch Nat) :=
  match wait_event with
  | none => none
  | some _ => some (⟨.verifyUnmap, task_iter⟩, map_verify_add_scan data correct_val)

/-! ## Per-iteration dataflow

The wait lists (proved above over `driverTrace`) serialize, within one
iteration, Fill before Write before Kernel before Verify on the same
buffers, and gate Fill(i) behind Kernel(i-1), so each iteration's
value-level effect on `src_buf`/`dst_buf` is the sequential composition
fill, write, kernel; Verify-Add then scans `dst_buf`. -/

/-- The contents of `dst_buf` seen by iteration `i`'s Verify-Add scan:
`src_buf` is filled with junk, overwritten with `write_val` splats by
Write-Init, and the kernel writes `src + sum` into `dst_buf`. -/
def iteration_values (n : Nat) (write_val addend : Int) : List Int4 :=
  kernel_apply addend (write_all write_val (fill_junk_buf n))

/-- The value of iteration `i`'s Verify-Add pending result on an
`n`-element buffer. -/
def verify_result (n : Nat) (write_val addend correct_val : Int) :
    Except Mismatch Nat :=
  map_verify_add_scan (iteration_values n write_val addend) correct_val

/-! ## Iteration task, queue and completion thread -/

/-- `futures::Join` of the Write-Init and Verify-Add results, the value of
`write_init.join(verify_add)`: both succeed, or the task carries an error. -/
def joinResults (w v : Except Mismatch Nat) : Except Mismatch (Nat × Nat) :=
  match w, v with
  | .ok a, .ok b => .ok (a, b)
  | .error e, _ => .error e
  | .ok _, .error e => .error e

/-- The host-visible outcomes of one loop iteration's three futures;
`verify_init_res` is `none` when `read_verify_init` panicked. -/
structure IterOutcome where
  write_res : Except Mismatch Nat
  verify_init_res : Option (Except Mismatch Nat)
  verify_add_res : Except Mismatch Nat

/-- The tasks `main` submits to the channel: per iteration, exactly
`write_init.join(verify_add)`; the `verify_init` future is dropped without
being joined or polled. -/
def run_tasks (outs : List IterOutcome) : List (Except Mismatch (Nat × Nat)) :=
  outs.map (fun o => joinResults o.write_res o.verify_add_res)

/-- The loop body of `completion_thread` over the resolved task values it
receives, starting from counter `task_i`. For each task it calls
`task.wait().unwrap()`: on `Ok` it prints `"Task {task_i} complete"` (the
counter, nothing of the task's value) and increments the counter; on `Err`
the `unwrap` panics, which kills the thread. Result: the list of reported
counters, and the error the thread panicked on, if any. -/
def consumer_run : List (Except Mismatch (Nat × Nat)) → Nat → List Nat × Option Mismatch
  | [], _ => ([], none)
  | .ok _ :: rest, i =>
    let r := consumer_run rest (i + 1)
    (i :: r.1, r.2)
  | .error e :: _, _ => ([], some e)

/-- One interaction with the `sync_channel`: a send completing on the
producer side, or a receive on the consumer side. -/
inductive ChanOp
  | send
  | recv
deriving DecidableEq, Repr

/-- Number of sends in a trace prefix. -/
def sends (tr : List ChanOp) : Nat := tr.countP (· = ChanOp.send)

/-- Number of receives in a trace prefix. -/
def recvs (tr : List ChanOp) : Nat := tr.countP (· = ChanOp.recv)

/-- Model of `mpsc::sync_channel(bound)` (external std library): a send
completes only while at most `bound` sent values are still unreceived, so in
every prefix of a valid trace the completed sends exceed the receives by at
most `bound`. With `bound = 0` (a rendezvous channel) each send completes
together with its receive. -/
def validSyncTrace (bound : Nat) (tr : List ChanOp) : Prop :=
  ∀ n, sends (tr.take n) ≤ recvs (tr.take n) + bound

instance (bound : Nat) (tr : List ChanOp) : Decidable (validSyncTrace bound tr) :=
  decidable_of_iff
    (∀ n < tr.length + 1, sends (tr.take n) ≤ recvs (tr.take n) + bound) (by
      unfold validSyncTrace
      constructor
      · intro h n
        by_cases hn : n < tr.length + 1
        · exact h n hn
        · have hle : tr.length ≤ n := by omega
          simpa [List.take_of_length_le hle] using h tr.length (by omega)
      · intro h n _; exact h n)

/-- Tasks submitted but not yet claimed by the consumer after a trace
prefix. -/
def outstanding (tr : List ChanOp) : Nat := sends tr - recvs tr

/-! ## Helper lemmas -/

theorem kern_elem_sum_scalar_addend : kern_elem_sum SCALAR_ADDEND = 100 := by
  have h1 : ((((100 : Int) : ℚ) * 255) / 255) / ((100 : Int) : ℚ) = 1 := by norm_num
  rw [kern_elem_sum, SCALAR_ADDEND, if_neg (by norm_num), h1, qtrunc,
    if_neg (by norm_num), show Rat.floor 1 = 1 from rfl]
  norm_num

theorem splat_addWrap_concrete :
    (Int4.splat 50).addWrap 100 = Int4.splat 150 := by
  decide

theorem write_all_eq_replicate (v : Int) :
    ∀ l : List Int4, write_all v l = List.replicate l.length (Int4.splat v)
  | [] => rfl
  | _ :: rest => by
    simp [write_all, List.replicate_succ, write_all_eq_replicate v rest]

theorem verify_scan_replicate (cv : Int) :
    ∀ (m idx count : Nat),
      verify_scan cv (List.replicate m (Int4.splat cv)) idx count = .ok (count + m)
  | 0, _, count => by simp [verify_scan]
  | m + 1, idx, count => by
    rw [List.replicate_succ, verify_scan]
    simp only [ne_eq, not_true_eq_false, if_false, ite_false]
    rw [verify_scan_replicate cv m (idx + 1) (count + 1)]
    congr 1
    omega

theorem iteration_values_concrete (n : Nat) :
    iteration_values n 50 SCALAR_ADDEND = List.replicate n (Int4.splat 150) := by
  rw [iteration_values, fill_junk_buf, write_all_eq_replicate, List.length_replicate,
    kernel_apply, List.map_replicate, kern_elem_sum_scalar_addend, splat_addWrap_concrete]

/-- `verify_scan` in closed form: success with the element count when every
element matches, otherwise the first mismatching index with expected and
actual values. -/
theorem verify_scan_closed (cv : Int) :
    ∀ (data : List Int4) (idx count : Nat),
      verify_scan cv data idx count =
        if data.all (fun w => w = Int4.splat cv) then .ok (count + data.length)
        else
          .error ⟨idx + data.findIdx (fun w => ¬(w = Int4.splat cv)),
            Int4.splat cv,
            data.getD (data.findIdx (fun w => ¬(w = Int4.splat cv))) (Int4.splat cv)⟩
  | [], _, count => by simp [verify_scan]
  | d :: rest, idx, count => by
    by_cases hd : d = Int4.splat cv
    · have hd' : ¬(d ≠ Int4.splat cv) := by simp [hd]
      rw [verify_scan, if_neg hd', verify_scan_closed cv rest (idx + 1) (count + 1)]
      by_cases hall : rest.all (fun w => w = Int4.splat cv)
      · have hallc : ((d :: rest).all fun w => w = Int4.splat cv) = true := by
          rw [List.all_cons, hall]
          simp [hd]
        rw [if_pos hall, if_pos hallc]
        simp only [List.length_cons]
        congr 1
        omega
      · rw [if_neg hall, if_neg (by simp [hd, hall])]
        have hfind : (d :: rest).findIdx (fun w => ¬(w = Int4.splat cv)) =
            rest.findIdx (fun w => ¬(w = Int4.splat cv)) + 1 := by
          rw [List.findIdx_cons]
          simp [hd]
        rw [hfind, List.getD_cons_succ]
        have harith : idx + 1 + rest.findIdx (fun w => ¬(w = Int4.splat cv)) =
            idx + (rest.findIdx (fun w => ¬(w = Int4.splat cv)) + 1) := by omega
        rw [harith]
    · rw [verify_scan, if_pos hd]
      rw [if_neg (by simp [hd])]
      have hfind : (d :: rest).findIdx (fun w => ¬(w = Int4.splat cv)) = 0 := by
        rw [List.findIdx_cons]
        simp [hd]
      rw [hfind, List.getD_cons_zero, Nat.add_zero]

theorem consumer_run_all_ok :
    ∀ (tasks : List (Except Mismatch (Nat × Nat))) (i : Nat),
      (∀ t ∈ tasks, t.isOk = true) →
      consumer_run tasks i = (List.range' i tasks.length, none)
  | [], i, _ => by simp [consumer_run, List.range']
  | .ok a :: rest, i, h => by
    rw [consumer_run]
    simp only [List.length_cons, List.range'_succ]
    rw [consumer_run_all_ok rest (i + 1) (fun t ht => h t (List.mem_cons_of_mem _ ht))]
  | .error e :: rest, i, h => by
    have := h (.error e) (List.mem_cons_self _ _)
    simp [Except.isOk, Except.toBool] at this

theorem consumer_run_error_after :
    ∀ (pre : List (Except Mismatch (Nat × Nat))) (e : Mismatch)
      (post : List (Except Mismatch (Nat × Nat))) (i : Nat),
      (∀ t ∈ pre, t.isOk = true) →
      consumer_run (pre ++ .error e :: post) i = (List.range' i pre.length, some e)
  | [], e, post, i, _ => by simp [consumer_run, List.range']
  | .ok a :: rest, e, post, i, h => by
    rw [List.cons_append, consumer_run]
    simp only [List.length_cons, List.range'_succ]
    rw [consumer_run_error_after rest e post (i + 1)
      (fun t ht => h t (List.mem_cons_of_mem _ ht))]
  | .error e₀ :: rest, e, post, i, h => by
    have := h (.error e₀) (List.mem_cons_self _ _)
    simp [Except.isOk, Except.toBool] at this

theorem outstanding_le_of_valid (bound : Nat) (tr : List ChanOp)
    (h : validSyncTrace bound tr) (n : Nat) :
    outstanding (tr.take n) ≤ bound := by
  have := h n
  unfold outstanding
  omega

theorem joinResults_isOk (w v : Except Mismatch Nat) :
    (joinResults w v).isOk = (w.isOk && v.isOk) := by
  cases w <;> cases v <;> rfl

/-! ## Claims -/

/-- Claim C1: for every run with `K ≥ 1` iterations and element count `≥ 1`,
with the program's write value 50 and kernel addend `SCALAR_ADDEND = 100`,
every element of the output buffer seen by any iteration's Verify-Add scan
equals `50 + 100 = 150`, so every iteration's Verify pending result resolves
successfully (to the element count). -/
theorem C1_verified_values (K n i : Nat) (hK : 1 ≤ K) (hn : 1 ≤ n) (hi : i < K) :
    (∀ v ∈ iteration_values n 50 SCALAR_ADDEND, v = Int4.splat (50 + SCALAR_ADDEND)) ∧
    verify_result n 50 SCALAR_ADDEND 150 = .ok n := by
  constructor
  · intro v hv
    rw [iteration_values_concrete] at hv
    rw [List.eq_of_mem_replicate hv]
    rfl
  · rw [verify_result, iteration_values_concrete, map_verify_add_scan,
      verify_scan_replicate, Nat.zero_add]

/-- Witness for C1 at the spec's concrete case: element count 16, `K = 3`,
iteration 1. -/
theorem C1_verified_values_witness :
    (∀ v ∈ iteration_values 16 50 SCALAR_ADDEND, v = Int4.splat (50 + SCALAR_ADDEND)) ∧
    verify_result 16 50 SCALAR_ADDEND 150 = .ok 16 :=
  C1_verified_values 3 16 1 (by decide) (by decide) (by decide)

/-- Claim C2: at every iteration `i` the kernel wait list is rebuilt to hold
exactly the previous iteration's Verify-unmap event (absent for `i = 0`)
followed by the current iteration's Write-Init-unmap event; the enqueued
kernel waits (through the marker enqueued on exactly this list) on these and
nothing else. -/
theorem C2_kernel_wait_list_exact (i : Nat) :
    (driverTrace i).kernel_wait_list =
      (if i = 0 then [] else [⟨.verifyUnmap, i - 1⟩]) ++ [⟨.writeUnmap, i⟩] :=
  driverTrace_kernel_wait_list i

/-- Claim C3: Fill is enqueued waiting on the previous iteration's kernel
event (`fill_junk` receives `kernel_event` before `kernel_add` replaces it),
with no wait at iteration 0; hence in any execution that starts an operation
only after its wait events complete, Fill(i) starts no earlier than
Compute(i-1) completes. -/
theorem C3_fill_gated_on_previous_kernel
    (completeT : Ev → Nat) (fillStartT : Nat → Nat)
    (hgate : ∀ i e, (driverTrace i).fill_wait = some e → completeT e ≤ fillStartT i)
    (i : Nat) (hi : 1 ≤ i) :
    (driverTrace 0).fill_wait = none ∧
    (driverTrace i).fill_wait = some ⟨.kernel, i - 1⟩ ∧
    completeT ⟨.kernel, i - 1⟩ ≤ fillStartT i := by
  have h0 : (driverTrace 0).fill_wait = none := by
    rw [driverTrace_fill_wait]
    rfl
  have hw : (driverTrace i).fill_wait = some ⟨.kernel, i - 1⟩ := by
    rw [driverTrace_fill_wait, if_neg (by omega)]
  exact ⟨h0, hw, hgate i _ hw⟩

/-- Witness for C3: the gating bound at iteration 1 under the trivial
execution where everything completes and starts at time 0. -/
theorem C3_fill_gated_witness :
    (driverTrace 0).fill_wait = none ∧
    (driverTrace 1).fill_wait = some ⟨.kernel, 0⟩ ∧
    (0 : Nat) ≤ 0 :=
  C3_fill_gated_on_previous_kernel (fun _ => 0) (fun _ => 0)
    (fun _ _ _ => Nat.le_refl 0) 1 (by decide)

/-- Claim C4, counterexample: the channel `main` creates is
`mpsc::sync_channel(MAX_CONCURRENT_TASK_COUNT - 2)`, a FIFO of capacity
`2 - 2 = 0` (a rendezvous channel), not of capacity `C = 2`. -/
theorem C4_capacity_cex :
    channel_capacity = 0 ∧ channel_capacity ≠ MAX_CONCURRENT_TASK_COUNT ∧
    ¬ 2 ≤ channel_capacity := by
  decide

/-- Claim C4, amended: the queue is a blocking FIFO of capacity
`MAX_CONCURRENT_TASK_COUNT - 2 = 0`; in every valid trace of such a channel
(any run length, in particular the `K = 10` run's 11 sends) the number of
tasks submitted but not yet claimed never exceeds the capacity, hence never
exceeds `MAX_CONCURRENT_TASK_COUNT = 2`. -/
theorem C4_outstanding_bounded (tr : List ChanOp)
    (h : validSyncTrace channel_capacity tr) (n : Nat) :
    outstanding (tr.take n) ≤ channel_capacity ∧
    outstanding (tr.take n) ≤ MAX_CONCURRENT_TASK_COUNT := by
  have hb := outstanding_le_of_valid channel_capacity tr h n
  exact ⟨hb, le_trans hb (by decide)⟩

/-- Witness for C4: the trace of a `K = 10` run (10 task sends plus the
sentinel, each a rendezvous with its receive), taken whole. -/
theorem C4_outstanding_bounded_witness :
    outstanding (((List.replicate 11 [ChanOp.recv, ChanOp.send]).flatten).take 22)
        ≤ channel_capacity ∧
    outstanding (((List.replicate 11 [ChanOp.recv, ChanOp.send]).flatten).take 22)
        ≤ MAX_CONCURRENT_TASK_COUNT :=
  C4_outstanding_bounded _ (by decide) 22

/-- Claim C5: every call of `map_verify_add` with an available wait event
produces (and retains for the driver) an unmap-completion event, and its
pending result is the element count when every element matches the expected
splat, and otherwise the mismatch error carrying the first mismatching
index, the expected value and the actual value found there — no count. -/
theorem C5_verify_add_scan (wait : Ev) (data : List Int4) (cv : Int) (ti : Nat) :
    map_verify_add (some wait) data cv ti =
      some (⟨.verifyUnmap, ti⟩,
        if data.all (fun w => w = Int4.splat cv) then .ok data.length
        else
          .error ⟨data.findIdx (fun w => ¬(w = Int4.splat cv)),
            Int4.splat cv,
            data.getD (data.findIdx (fun w => ¬(w = Int4.splat cv))) (Int4.splat cv)⟩) := by
  rw [map_verify_add]
  rw [map_verify_add_scan, verify_scan_closed]
  by_cases hall : data.all (fun w => w = Int4.splat cv)
  · rw [if_pos hall, if_pos hall, Nat.zero_add]
  · rw [if_neg hall, if_neg hall, Nat.zero_add]

/-- Claim C6, counterexample: the completion thread's success report is the
formatted counter only; two runs whose single task resolves to different
element counts produce identical reports, so the element count is not
reported. -/
theorem C6_count_not_reported_cex :
    consumer_run [Except.ok ((0, 5) : Nat × Nat)] 0 =
      consumer_run [Except.ok ((0, 999) : Nat × Nat)] 0 ∧
    (5 : Nat) ≠ 999 := by
  decide

/-- Claim C6, amended: the consumer reports iterations strictly in
submission order — on an all-successful run of `K` tasks the reported
counters are exactly `0, 1, ..., K-1` in order (the consumer blocks on each
task fully before advancing, so actual completion order cannot reorder
reports, and the reported counter equals the iteration index) — but the
report carries no element count. -/
theorem C6_reports_in_submission_order (tasks : List (Except Mismatch (Nat × Nat)))
    (h : ∀ t ∈ tasks, t.isOk = true) :
    consumer_run tasks 0 = (List.range tasks.length, none) := by
  rw [consumer_run_all_ok tasks 0 h, List.range_eq_range']

/-- Witness for C6: a three-iteration all-successful run reports 0, 1, 2. -/
theorem C6_reports_witness :
    consumer_run [Except.ok ((0, 16) : Nat × Nat), Except.ok (1, 16), Except.ok (2, 16)] 0 =
      (List.range 3, none) :=
  C6_reports_in_submission_order _ (by decide)

/-- Claim C7: when one iteration's Verify-Add resolves to a mismatch (its
Write-Init having succeeded), the error travels inside that iteration's
joined task — not raised at enqueue time — and the consumer, having reported
exactly the earlier all-successful iterations, halts on it (the `unwrap`
panic ends the loop): no iteration at or after the failing one is ever
reported as successful. -/
theorem C7_mismatch_halts_consumer (pre post : List IterOutcome) (o : IterOutcome)
    (e : Mismatch) (a : Nat)
    (hpre : ∀ p ∈ pre, p.write_res.isOk = true ∧ p.verify_add_res.isOk = true)
    (hw : o.write_res = .ok a) (hv : o.verify_add_res = .error e) :
    run_tasks (pre ++ o :: post) =
      run_tasks pre ++ .error e :: run_tasks post ∧
    consumer_run (run_tasks (pre ++ o :: post)) 0 =
      (List.range pre.length, some e) ∧
    ∀ j ∈ (consumer_run (run_tasks (pre ++ o :: post)) 0).1, j < pre.length := by
  have htask : joinResults o.write_res o.verify_add_res = .error e := by
    rw [hw, hv]
    rfl
  have hsplit : run_tasks (pre ++ o :: post) =
      run_tasks pre ++ .error e :: run_tasks post := by
    rw [run_tasks, List.map_append, List.map_cons, htask]
    rfl
  have hok : ∀ t ∈ run_tasks pre, t.isOk = true := by
    intro t ht
    rw [run_tasks] at ht
    obtain ⟨p, hp, rfl⟩ := List.mem_map.mp ht
    rw [joinResults_isOk, (hpre p hp).1, (hpre p hp).2]
    rfl
  have hrun : consumer_run (run_tasks (pre ++ o :: post)) 0 =
      (List.range pre.length, some e) := by
    rw [hsplit, consumer_run_error_after (run_tasks pre) e (run_tasks post) 0 hok,
      List.range_eq_range', run_tasks, List.length_map]
  refine ⟨hsplit, hrun, ?_⟩
  intro j hj
  rw [hrun] at hj
  exact List.mem_range.mp hj

/-- Witness for C7 at the spec's error-path scenario: iterations 0 and 1
succeed, iteration 2's verify mismatches at index 0, iteration 3 is already
submitted; only 0 and 1 are reported. -/
theorem C7_mismatch_halts_witness :
    run_tasks
        ([⟨.ok 0, none, .ok 16⟩, ⟨.ok 1, none, .ok 16⟩] ++
          ⟨.ok 2, none, .error ⟨0, Int4.splat 150, Int4.splat 7⟩⟩ ::
          [⟨.ok 3, none, .ok 16⟩]) =
      run_tasks [⟨.ok 0, none, .ok 16⟩, ⟨.ok 1, none, .ok 16⟩] ++
        .error ⟨0, Int4.splat 150, Int4.splat 7⟩ ::
        run_tasks [⟨.ok 3, none, .ok 16⟩] ∧
    consumer_run
        (run_tasks
          ([⟨.ok 0, none, .ok 16⟩, ⟨.ok 1, none, .ok 16⟩] ++
            ⟨.ok 2, none, .error ⟨0, Int4.splat 150, Int4.splat 7⟩⟩ ::
            [⟨.ok 3, none, .ok 16⟩])) 0 =
      (List.range 2, some ⟨0, Int4.splat 150, Int4.splat 7⟩) ∧
    ∀ j ∈ (consumer_run
        (run_tasks
          ([⟨.ok 0, none, .ok 16⟩, ⟨.ok 1, none, .ok 16⟩] ++
            ⟨.ok 2, none, .error ⟨0, Int4.splat 150, Int4.splat 7⟩⟩ ::
            [⟨.ok 3, none, .ok 16⟩])) 0).1, j < 2 :=
  C7_mismatch_halts_consumer
    [⟨.ok 0, none, .ok 16⟩, ⟨.ok 1, none, .ok 16⟩] [⟨.ok 3, none, .ok 16⟩]
    ⟨.ok 2, none, .error ⟨0, Int4.splat 150, Int4.splat 7⟩⟩
    ⟨0, Int4.splat 150, Int4.splat 7⟩ 2
    (by decide) rfl rfl

/-- Claim C8: every call of `map_write_init` writes the given value into
every element of the mapped buffer (length unchanged), retains the
unmap-completion event for the driver, and its pending result resolves to
the iteration index. -/
theorem C8_write_init (buf : List Int4) (write_val : Int) (ti : Nat) :
    (∀ v ∈ (map_write_init buf write_val ti).1, v = Int4.splat write_val) ∧
    (map_write_init buf write_val ti).1.length = buf.length ∧
    (map_write_init buf write_val ti).2.1 = ⟨.writeUnmap, ti⟩ ∧
    (map_write_init buf write_val ti).2.2 = .ok ti := by
  refine ⟨?_, ?_, rfl, rfl⟩
  · intro v hv
    rw [map_write_init] at hv
    simp only [write_all_eq_replicate] at hv
    exact List.eq_of_mem_replicate hv
  · rw [map_write_init]
    simp [write_all_eq_replicate]

/-- Claim C9: `read_verify_init` unwraps its optional wait event before
anything else, so a `None` wait event panics (modelled `none`); in the
driver loop its wait argument is the previous iteration's kernel completion
event, which is absent at iteration 0 (the current iteration's kernel event
is only created afterwards, by `kernel_add`). -/
theorem C9_verify_init_unwrap_panic :
    (∀ (data : List Int4) (cv : Int), read_verify_init none data cv = none) ∧
    (driverTrace 0).verify_init_wait = none ∧
    (∀ i : Nat, (driverTrace i).verify_init_wait =
      if i = 0 then none else some ⟨.kernel, i - 1⟩) := by
  refine ⟨fun _ _ => rfl, ?_, driverTrace_verify_init_wait⟩
  rw [driverTrace_verify_init_wait]
  rfl

/-- Claim C10: the task `main` submits for each iteration is the join of
exactly the Write-Init and Verify-Add pending results; the Read-Verify-Init
pending result is never joined or awaited, so replacing every iteration's
Verify-Init outcome arbitrarily changes neither the submitted tasks nor
anything the consumer reports. -/
theorem C10_verify_init_discarded (outs : List IterOutcome)
    (f : Option (Except Mismatch Nat) → Option (Except Mismatch Nat)) :
    run_tasks outs = outs.map (fun o => joinResults o.write_res o.verify_add_res) ∧
    run_tasks (outs.map (fun o => ⟨o.write_res, f o.verify_init_res, o.verify_add_res⟩)) =
      run_tasks outs ∧
    consumer_run
        (run_tasks (outs.map (fun o => ⟨o.write_res, f o.verify_init_res, o.verify_add_res⟩))) 0 =
      consumer_run (run_tasks outs) 0 := by
  have h2 : run_tasks (outs.map (fun o => ⟨o.write_res, f o.verify_init_res, o.verify_add_res⟩)) =
      run_tasks outs := by
    rw [run_tasks, run_tasks, List.map_map]
    rfl
  exact ⟨rfl, h2, by rw [h2]⟩

end Proto
